import Mathlib

/-!
Shallow embedding of `plugin.py` (maibot_steam_status): a Steam alias-binding
and presence-reporting command handler.

Modelling conventions:
* Python strings are `List Char` (`Str`); `str.strip()` / `lstrip("@")` /
  `lower()` / `isdigit()` are modelled character-wise (ASCII whitespace,
  ASCII case folding and ASCII digits, which covers every input the claims
  quantify over).
* The JSON store `{chat_key: {"aliases": {alias: record}}}` is modelled as
  insertion-ordered association lists with Python-dict semantics (lookup of
  the first matching key; assignment replaces in place, otherwise appends;
  `del` removes the entry).
* The durable file is `FileContent`: absent, unparseable, or a good store.
* The remote Steam Web API is an oracle `Remote`; `resolve_vanity` /
  `get_summary` return their result together with the number of remote HTTP
  requests actually issued (0 when the empty-credential guard short-circuits,
  1 otherwise).  A `none` summary is the code's empty dict `{}`.
* Local-timezone timestamp rendering (`fmt_ts`, which calls `astimezone()`)
  is environment-dependent and is passed in as a function `fmtTs`.
* Each command handler returns its reply text, the store it persists via
  `_save_store` (or `none` when no write happens), and its remote-call count.
-/

abbrev Str := List Char

/-- Python `str.strip()` whitespace characters (ASCII subset). -/
def isPySpace (c : Char) : Bool :=
  c == ' ' || c == '\t' || c == '\n' || c == '\r' || c == '\x0b' || c == '\x0c'

/-- Python `s.strip()`: drop leading and trailing whitespace. -/
def pyStrip (s : Str) : Str :=
  ((s.dropWhile isPySpace).reverse.dropWhile isPySpace).reverse

/-- Python `s.lstrip("@")`: drop every leading `'@'`. -/
def lstripAt (s : Str) : Str := s.dropWhile (fun c => c == '@')

/-- Decimal value of a digit string, as computed by Python `int(s)`. -/
def decVal (s : Str) : Nat := s.foldl (fun n c => 10 * n + (c.toNat - '0'.toNat)) 0

/-- Decimal rendering, as computed by Python `str(n)`. -/
def natToStr (n : Nat) : Str := (Nat.repr n).data

/-- Rendering of a Python `int` inside an f-string, e.g. `f"...({state})"`. -/
def intToStr (n : Int) : Str := (Int.repr n).data

-- ====== data model (plugin.py lines 27-35, 202-215, §6 JSON schema) ======

/-- One stored binding, the dict written by `do_link` (plugin.py 210-215). -/
structure AliasRecord where
  steamid : Str
  profileurl : Str
  personaname : Str
  created_at : Nat
  deriving DecidableEq

/-- One chat's entry in the JSON store: the dict `{"aliases": {...}}`. -/
structure ChatScope where
  aliases : List (Str × AliasRecord)
  deriving DecidableEq

/-- The persisted JSON document: `chat_key -> ChatScope`. -/
abbrev Store := List (Str × ChatScope)

/-- The durable file backing `_load_store` / `_save_store`: missing,
content that fails to parse, or a valid serialized store. -/
inductive FileContent where
  | absent : FileContent
  | corrupt : FileContent
  | good : Store → FileContent
  deriving DecidableEq

/-- `_load_store` (plugin.py 42-50): `{}` when the file does not exist, `{}`
when `json.load` raises, otherwise the parsed store. -/
def load_store : FileContent → Store
  | FileContent.absent => []
  | FileContent.corrupt => []
  | FileContent.good s => s

-- ====== association lists with Python-dict semantics ======

/-- `d.get(k)` / `d[k]`: first entry whose key matches. -/
def alookup {β : Type} : List (Str × β) → Str → Option β
  | [], _ => none
  | p :: l, k => if p.1 == k then some p.2 else alookup l k

/-- `d[k] = v`: replace in place when the key exists, else append. -/
def ainsert {β : Type} : List (Str × β) → Str → β → List (Str × β)
  | [], k, v => [(k, v)]
  | p :: l, k, v => if p.1 == k then (k, v) :: l else p :: ainsert l k v

/-- `del d[k]`: remove the entry for `k` (dict keys are unique). -/
def aerase {β : Type} : List (Str × β) → Str → List (Str × β)
  | [], _ => []
  | p :: l, k => if p.1 == k then l else p :: aerase l k

/-- Number of entries stored under key `k`. -/
def countKey {β : Type} (l : List (Str × β)) (k : Str) : Nat :=
  l.countP (fun p => p.1 == k)

/-- Python-dict well-formedness: keys occur at most once. -/
def keysNodup {β : Type} (l : List (Str × β)) : Prop :=
  (l.map Prod.fst).Nodup

instance {β : Type} (l : List (Str × β)) : Decidable (keysNodup l) :=
  inferInstanceAs (Decidable ((l.map Prod.fst).Nodup))

/-- `store.get(chat, {}).get("aliases", {})` (plugin.py 223, 233, 245, 264). -/
def aliasesOf (s : Store) (chat : Str) : List (Str × AliasRecord) :=
  ((alookup s chat).map ChatScope.aliases).getD []

-- ====== remote API oracle ======

/-- Profile summary dict returned by GetPlayerSummaries; every field is
optional (absent key = `none`).  The code reads exactly these keys. -/
structure Info where
  personaname : Option Str
  personastate : Option Int
  profileurl : Option Str
  gameextrainfo : Option Str
  lastlogoff : Option Int
  communityvisibilitystate : Option Int
  deriving DecidableEq

/-- The remote Steam Web API as an oracle.  `vanity` packages the whole
`ResolveVanityURL` interaction (`none` on transport error, non-success or
missing id); `summary` packages `GetPlayerSummaries` (`none` for an empty
player list or any failure). -/
structure Remote where
  vanity : Str → Option Str
  summary : Str → Option Info

/-- `SteamService.__init__`: the stored credential is the stripped key. -/
def mkService (raw_key : Str) : Str := pyStrip raw_key

/-- `SteamService.resolve_vanity` (plugin.py 76-91), instrumented with the
number of HTTP requests issued: the empty-key guard returns before any call. -/
def resolve_vanity (api_key : Str) (remote : Remote) (v : Str) : Option Str × Nat :=
  if api_key.isEmpty then (none, 0) else (remote.vanity v, 1)

/-- `SteamService.get_summary` (plugin.py 93-106), instrumented likewise;
`none` stands for the empty dict `{}`. -/
def get_summary (api_key : Str) (remote : Remote) (sid : Str) : Option Info × Nat :=
  if api_key.isEmpty then (none, 0) else (remote.summary sid, 1)

/-- Python truthiness of `info.get(field)` for a string field:
present and non-empty. -/
def truthyStr : Option Str → Bool
  | some s => !s.isEmpty
  | none => false

/-- Python truthiness of `info.get(field)` for an integer field:
present and non-zero. -/
def truthyInt : Option Int → Bool
  | some n => !(n == 0)
  | none => false

-- ====== normalization (plugin.py 116-139) ======

/-- `SteamService.norm_alias`: `s.strip().lstrip("@").lower()`. -/
def norm_alias (s : Str) : Str := (lstripAt (pyStrip s)).map Char.toLower

/-- `SteamService.norm_identifier` (plugin.py 121-139): strip, strip `'@'`;
empty fails; all-digit strings of length ≥ 16 pass through, shorter ones get
the SteamID32→64 offset; anything else goes to vanity resolution. -/
def norm_identifier (api_key : Str) (remote : Remote) (s0 : Str) : Option Str × Nat :=
  let s := lstripAt (pyStrip s0)
  if s.isEmpty then (none, 0)
  else if s.all Char.isDigit then
    if 16 ≤ s.length then (some s, 0)
    else (some (natToStr (decVal s + 76561197960265728)), 0)
  else resolve_vanity api_key remote s

-- ====== status rendering (plugin.py 27-35, 273-296) ======

/-- `PERSONA_STATE.get(state, f"未知状态({state})")` over the closed table
0..6 (plugin.py 27-35, 286). -/
def personaState (st : Int) : Str :=
  if st == 0 then "离线".data
  else if st == 1 then "在线".data
  else if st == 2 then "忙碌".data
  else if st == 3 then "离开".data
  else if st == 4 then "暂离（打盹）".data
  else if st == 5 then "寻找交易".data
  else if st == 6 then "寻找玩伴".data
  else "未知状态(".data ++ intToStr st ++ ")".data

/-- f-string `f"玩家: {name}（{sid}）"`. -/
def playerLine (name sid : Str) : Str :=
  "玩家: ".data ++ name ++ "（".data ++ sid ++ "）".data

/-- f-string `f"状态: {s_text}"`. -/
def stateLine (st : Int) : Str := "状态: ".data ++ personaState st

/-- Fixed line of the missing-personastate branch (plugin.py 279). -/
def noStateLine : Str := "状态: 无法判断（可能因隐私未公开）".data

/-- f-string `f"当前游戏: {...}"`. -/
def gameLine (g : Str) : Str := "当前游戏: ".data ++ g

/-- f-string `f"最后下线时间: {...}"`. -/
def logoffLine (t : Str) : Str := "最后下线时间: ".data ++ t

/-- f-string `f"档案: {...}"`. -/
def urlLine (u : Str) : Str := "档案: ".data ++ u

/-- Privacy caveat appended by `do_status` when `communityvisibilitystate`
is not 3 (plugin.py 274). -/
def privacyLineStatus : Str := "该用户的个人资料未公开，可用信息受限。".data

/-- `"\n".join(parts)`. -/
def joinNl (parts : List Str) : Str := List.intercalate ('\n' :: []) parts

/-- The `parts` list built by `do_status` once a non-empty summary is in hand
(plugin.py 273-296): privacy flag, display name with default, then either the
missing-personastate branch or the persona-state branch with its conditional
game / last-logoff / profile-url / privacy lines, in source order. -/
def render_status (fmtTs : Int → Str) (sid : Str) (info : Info) : List Str :=
  let privacy : Bool := !(info.communityvisibilitystate == some 3)
  let name := info.personaname.getD ("<未公开昵称>".data)
  match info.personastate with
  | none =>
    [playerLine name sid, noStateLine]
      ++ (if truthyStr info.profileurl then [urlLine (info.profileurl.getD [])] else [])
      ++ (if privacy then [privacyLineStatus] else [])
  | some st =>
    [playerLine name sid, stateLine st]
      ++ (if truthyStr info.gameextrainfo then [gameLine (info.gameextrainfo.getD [])] else [])
      ++ (if (st == 0) && truthyInt info.lastlogoff then [logoffLine (fmtTs (info.lastlogoff.getD 0))] else [])
      ++ (if truthyStr info.profileurl then [urlLine (info.profileurl.getD [])] else [])
      ++ (if privacy then [privacyLineStatus] else [])

-- ====== command handlers (plugin.py 195-296) ======

/-- Result of `do_link`: reply text, store handed to `_save_store` (if any),
and remote-call count. -/
structure LinkOut where
  msg : Str
  write : Option Store
  calls : Nat
  deriving DecidableEq

/-- `SteamCommand.do_link` (plugin.py 195-217). -/
def do_link (api_key : Str) (remote : Remote) (file : FileContent) (chat : Str)
    (now : Nat) (al ident : Str) : LinkOut :=
  if api_key.isEmpty then ⟨"请先配置 steam.api_key。".data, none, 0⟩ else
  let al := norm_alias al
  let p := norm_identifier api_key remote ident
  match p.1 with
  | none => ⟨"无法解析为 SteamID：".data ++ ident, none, p.2⟩
  | some steamid =>
    if steamid.isEmpty then ⟨"无法解析为 SteamID：".data ++ ident, none, p.2⟩
    else
      let q := get_summary api_key remote steamid
      match q.1 with
      | none =>
        ⟨"绑定失败：未能获取该账号信息（steamid: ".data ++ steamid ++ "）。".data,
         none, p.2 + q.2⟩
      | some info =>
        let store := load_store file
        let scope := (alookup store chat).getD ⟨[]⟩
        let record : AliasRecord :=
          ⟨steamid, info.profileurl.getD [], info.personaname.getD [], now⟩
        let store1 := ainsert store chat ⟨ainsert scope.aliases al record⟩
        ⟨"已绑定：".data ++ al ++ " -> ".data ++ info.personaname.getD [] ++
           " (".data ++ steamid ++ ")".data,
         some store1, p.2 + q.2⟩

/-- `SteamCommand.do_unlink` (plugin.py 219-228): reply text plus the store
handed to `_save_store` (`none` when no write happens). -/
def do_unlink (file : FileContent) (chat : Str) (al : Str) : Str × Option Store :=
  let al := norm_alias al
  let store := load_store file
  let aliases := aliasesOf store chat
  match alookup aliases al with
  | none => ("未找到别名：".data ++ al, none)
  | some _ => ("已解除绑定：".data ++ al, some (ainsert store chat ⟨aerase aliases al⟩))

/-- `SteamCommand.do_list` (plugin.py 230-239). -/
def do_list (file : FileContent) (chat : Str) : Str :=
  let aliases := aliasesOf (load_store file) chat
  if aliases.isEmpty then
    "本群未绑定任何别名。\n请使用：/steam link <别名> <steamid|vanity>".data
  else
    joinNl (("本群绑定列表：".data) ::
      aliases.map (fun p =>
        "- ".data ++ p.1 ++ " -> ".data ++ p.2.personaname ++
          " (".data ++ p.2.steamid ++ ")".data))

/-- `SteamCommand.do_whois` (plugin.py 241-259): reply text and remote-call
count. -/
def do_whois (api_key : Str) (remote : Remote) (file : FileContent) (chat : Str)
    (al : Str) : Str × Nat :=
  let al := norm_alias al
  match alookup (aliasesOf (load_store file) chat) al with
  | none => ("未找到别名：".data ++ al, 0)
  | some r =>
    let sid := r.steamid
    let q := get_summary api_key remote sid
    match q.1 with
    | none =>
      (al ++ " -> ".data ++ sid ++ "\n无法获取详细信息，可能隐私未公开或 API 出错。".data, q.2)
    | some info =>
      let privacy : Bool := !(info.communityvisibilitystate == some 3)
      let lines :=
        [al ++ " -> ".data ++ info.personaname.getD ("<未公开>".data) ++
           "（".data ++ sid ++ "）".data]
          ++ (if truthyStr info.profileurl then ["档案: ".data ++ info.profileurl.getD []] else [])
          ++ (if privacy then ["该用户资料未公开或部分未公开。".data] else [])
      (joinNl lines, q.2)

/-- Tail of `SteamCommand.do_status` from `if not sid:` on (plugin.py
265-296), abstracted over the resolved id `p.1` and the calls `p.2` already
made; Python `if not sid` rejects both `None` and the empty string. -/
def status_fetch (api_key : Str) (remote : Remote) (fmtTs : Int → Str)
    (target : Str) (p : Option Str × Nat) : Str × Nat :=
  match p.1 with
  | none => ("无法解析为 SteamID：".data ++ target, p.2)
  | some sid =>
    if sid.isEmpty then ("无法解析为 SteamID：".data ++ target, p.2)
    else
      let q := get_summary api_key remote sid
      match q.1 with
      | none =>
        ("未能获取到用户信息（steamid: ".data ++ sid ++ "），可能是隐私设置或 API 出错。".data,
         p.2 + q.2)
      | some info => (joinNl (render_status fmtTs sid info), p.2 + q.2)

/-- `SteamCommand.do_status` (plugin.py 261-296): alias lookup first
(`rec["steamid"] if rec`), else raw-identifier normalization, then the
shared fetch-and-render tail; reply text and remote-call count. -/
def do_status (api_key : Str) (remote : Remote) (fmtTs : Int → Str)
    (file : FileContent) (chat : Str) (target : Str) : Str × Nat :=
  status_fetch api_key remote fmtTs target
    (match alookup (aliasesOf (load_store file) chat) (norm_alias target) with
     | some r => (some r.steamid, 0)
     | none => norm_identifier api_key remote target)

-- ====== generic lemmas about the embedding ======

/-- A fixed oracle used by concrete witnesses: the remote never answers. -/
def remote0 : Remote := ⟨fun _ => none, fun _ => none⟩

theorem isPrefixOf_ne_head {a b : Char} (l1 l2 : List Char) (h : (a == b) = false) :
    List.isPrefixOf (a :: l1) (b :: l2) = false := by
  rw [List.isPrefixOf_cons₂, h, Bool.false_and]

theorem isPrefixOf_self_append (l t : List Char) : List.isPrefixOf l (l ++ t) = true := by
  simp [List.isPrefixOf_iff_prefix, List.prefix_append]

theorem alookup_ainsert_self {β : Type} (l : List (Str × β)) (k : Str) (v : β) :
    alookup (ainsert l k v) k = some v := by
  induction l with
  | nil => simp [ainsert, alookup]
  | cons p l ih =>
    by_cases h : (p.1 == k) = true
    · simp [ainsert, h, alookup]
    · simp [ainsert, h, alookup, ih]

theorem alookup_eq_none_of_not_mem {β : Type} (l : List (Str × β)) (k : Str)
    (h : k ∉ l.map Prod.fst) : alookup l k = none := by
  induction l with
  | nil => rfl
  | cons p l ih =>
    simp only [List.map_cons, List.mem_cons] at h
    push_neg at h
    have hb : (p.1 == k) = false := beq_eq_false_iff_ne.mpr (fun hh => h.1 hh.symm)
    simp [alookup, hb, ih h.2]

theorem alookup_aerase_self {β : Type} (l : List (Str × β)) (k : Str)
    (h : keysNodup l) : alookup (aerase l k) k = none := by
  induction l with
  | nil => rfl
  | cons p l ih =>
    simp only [keysNodup, List.map_cons, List.nodup_cons] at h
    by_cases hb : (p.1 == k) = true
    · have hk : p.1 = k := eq_of_beq hb
      simp only [aerase, hb, if_true]
      exact alookup_eq_none_of_not_mem l k (hk ▸ h.1)
    · have h2 : keysNodup l := h.2
      simp [aerase, hb, alookup, ih h2]

theorem countKey_eq_zero_of_not_mem {β : Type} (l : List (Str × β)) (k : Str)
    (h : k ∉ l.map Prod.fst) : countKey l k = 0 := by
  induction l with
  | nil => rfl
  | cons p l ih =>
    simp only [List.map_cons, List.mem_cons] at h
    push_neg at h
    have hbn : ¬ ((p.1 == k) = true) := fun hc => h.1 (eq_of_beq hc).symm
    simp only [countKey, List.countP_cons]
    rw [if_neg hbn]
    simp only [countKey] at ih
    rw [ih h.2]

theorem countKey_ainsert_of_nodup {β : Type} (l : List (Str × β)) (k : Str) (v : β)
    (h : keysNodup l) : countKey (ainsert l k v) k = 1 := by
  induction l with
  | nil =>
    simp only [ainsert, countKey, List.countP_cons, List.countP_nil]
    rw [if_pos (beq_self_eq_true k)]
  | cons p l ih =>
    simp only [keysNodup, List.map_cons, List.nodup_cons] at h
    by_cases hb : (p.1 == k) = true
    · have hk : p.1 = k := eq_of_beq hb
      have h0 : countKey l k = 0 := countKey_eq_zero_of_not_mem l k (hk ▸ h.1)
      simp only [ainsert]
      rw [if_pos hb]
      simp only [countKey, List.countP_cons] at h0 ⊢
      rw [if_pos (beq_self_eq_true k), h0]
    · simp only [ainsert]
      rw [if_neg hb]
      simp only [countKey, List.countP_cons] at ih ⊢
      rw [if_neg hb, ih h.2]

theorem mem_keys_ainsert {β : Type} (l : List (Str × β)) (k a : Str) (v : β) :
    a ∈ (ainsert l k v).map Prod.fst ↔ a = k ∨ a ∈ l.map Prod.fst := by
  induction l with
  | nil =>
    simp only [ainsert, List.map_cons, List.map_nil, List.mem_cons, List.not_mem_nil,
      or_false]
  | cons p l ih =>
    by_cases hb : (p.1 == k) = true
    · have hk : p.1 = k := eq_of_beq hb
      simp only [ainsert]
      rw [if_pos hb]
      simp only [List.map_cons, List.mem_cons, hk]
      constructor
      · intro hx
        rcases hx with hx | hx
        · exact Or.inl hx
        · exact Or.inr (Or.inr hx)
      · intro hx
        rcases hx with hx | hx
        · exact Or.inl hx
        · exact hx
    · simp only [ainsert]
      rw [if_neg hb]
      simp only [List.map_cons, List.mem_cons, ih]
      exact or_left_comm

theorem keysNodup_ainsert {β : Type} (l : List (Str × β)) (k : Str) (v : β)
    (h : keysNodup l) : keysNodup (ainsert l k v) := by
  induction l with
  | nil =>
    simp only [ainsert, keysNodup, List.map_cons, List.map_nil, List.nodup_cons,
      List.not_mem_nil, not_false_iff, List.nodup_nil, and_self]
  | cons p l ih =>
    simp only [keysNodup, List.map_cons, List.nodup_cons] at h
    by_cases hb : (p.1 == k) = true
    · have hk : p.1 = k := eq_of_beq hb
      simp only [ainsert]
      rw [if_pos hb]
      simp only [keysNodup, List.map_cons, List.nodup_cons]
      exact ⟨hk ▸ h.1, h.2⟩
    · have hpk : p.1 ≠ k := fun hc => hb (beq_iff_eq.mpr hc)
      simp only [ainsert]
      rw [if_neg hb]
      simp only [keysNodup, List.map_cons, List.nodup_cons]
      refine ⟨?_, ih h.2⟩
      intro hc
      rcases (mem_keys_ainsert l k p.1 v).1 hc with h1 | h2
      · exact hpk h1
      · exact h.1 h2

-- ====== C1 ======

/-- C1: for every input whose strip-and-strip-`@` normal form consists
entirely of decimal digits, `norm_identifier` returns that form unchanged
when it has length at least 16 and otherwise returns the decimal string of
its value plus 76561197960265728; in particular input "1" yields
"76561197960265729". -/
theorem c1_digit_normalization (api_key : Str) (remote : Remote) (s0 : Str)
    (h1 : lstripAt (pyStrip s0) ≠ [])
    (h2 : (lstripAt (pyStrip s0)).all Char.isDigit = true) :
    ((norm_identifier api_key remote s0).1 =
      (if 16 ≤ (lstripAt (pyStrip s0)).length then some (lstripAt (pyStrip s0))
       else some (natToStr (decVal (lstripAt (pyStrip s0)) + 76561197960265728)))) ∧
    (norm_identifier api_key remote ('1' :: [])).1 = some ("76561197960265729".data) := by
  constructor
  · have hne : (lstripAt (pyStrip s0)).isEmpty = false := by
      cases h : lstripAt (pyStrip s0) with
      | nil => exact absurd h h1
      | cons c l => simp [List.isEmpty]
    simp only [norm_identifier, hne, Bool.false_eq_true, if_false, h2, if_true]
    split
    · rfl
    · rfl
  · rfl

/-- C1 witness: concrete instance "  @123" (digits after trimming, short form). -/
theorem c1_digit_normalization_witness :
    (lstripAt (pyStrip ("  @123".data)) ≠ [] ∧
     (lstripAt (pyStrip ("  @123".data))).all Char.isDigit = true) ∧
    (((norm_identifier ("k".data) remote0 ("  @123".data)).1 =
      (if 16 ≤ (lstripAt (pyStrip ("  @123".data))).length then some (lstripAt (pyStrip ("  @123".data)))
       else some (natToStr (decVal (lstripAt (pyStrip ("  @123".data))) + 76561197960265728)))) ∧
     (norm_identifier ("k".data) remote0 ('1' :: [])).1 = some ("76561197960265729".data)) :=
  ⟨⟨by decide, by decide⟩,
   c1_digit_normalization ("k".data) remote0 ("  @123".data) (by decide) (by decide)⟩

theorem isEmpty_false_of_ne_nil {α : Type} (l : List α) (h : l ≠ []) :
    l.isEmpty = false := by
  cases l with
  | nil => exact absurd rfl h
  | cons a t => rfl

theorem scope_aliases_eq (s : Store) (chat : Str) :
    ((alookup s chat).getD ⟨[]⟩).aliases = aliasesOf s chat := by
  cases h : alookup s chat <;> simp [aliasesOf, h]

theorem aliasesOf_ainsert_self (s : Store) (chat : Str) (l : List (Str × AliasRecord)) :
    aliasesOf (ainsert s chat ⟨l⟩) chat = l := by
  simp [aliasesOf, alookup_ainsert_self]

theorem norm_identifier_calls_empty_key (remote : Remote) (s : Str) :
    (norm_identifier [] remote s).2 = 0 := by
  simp only [norm_identifier]
  split
  · rfl
  · split
    · split
      · rfl
      · rfl
    · rfl

theorem status_fetch_calls_empty_key (remote : Remote) (fmtTs : Int → Str)
    (target : Str) (p : Option Str × Nat) (hp : p.2 = 0) :
    (status_fetch [] remote fmtTs target p).2 = 0 := by
  simp only [status_fetch]
  cases hp1 : p.1 with
  | none => simpa using hp
  | some sid =>
    by_cases hs : sid.isEmpty = true
    · simp [hs, hp]
    · simp [hs, get_summary, hp]

theorem do_status_calls_empty_key (remote : Remote) (fmtTs : Int → Str)
    (file : FileContent) (chat target : Str) :
    (do_status [] remote fmtTs file chat target).2 = 0 := by
  simp only [do_status]
  apply status_fetch_calls_empty_key
  cases hrec : alookup (aliasesOf (load_store file) chat) (norm_alias target) with
  | some r => rfl
  | none => exact norm_identifier_calls_empty_key remote target

theorem do_whois_calls_empty_key (remote : Remote) (file : FileContent)
    (chat alia : Str) :
    (do_whois [] remote file chat alia).2 = 0 := by
  simp only [do_whois]
  cases hrec : alookup (aliasesOf (load_store file) chat) (norm_alias alia) with
  | none => rfl
  | some r => simp [get_summary]

/-- Shared success shape of `do_link`: with a credential, a resolvable
non-empty id and a non-empty summary, the handler binds under the normalized
alias and persists exactly the updated store. -/
theorem do_link_success (api_key : Str) (remote : Remote) (file : FileContent)
    (chat : Str) (now : Nat) (al ident sid : Str) (info : Info)
    (hk : api_key ≠ [])
    (hsid : (norm_identifier api_key remote ident).1 = some sid) (hne : sid ≠ [])
    (hsum : remote.summary sid = some info) :
    do_link api_key remote file chat now al ident =
      ⟨"已绑定：".data ++ norm_alias al ++ " -> ".data ++ info.personaname.getD [] ++
         " (".data ++ sid ++ ")".data,
       some (ainsert (load_store file) chat
         ⟨ainsert (aliasesOf (load_store file) chat) (norm_alias al)
           ⟨sid, info.profileurl.getD [], info.personaname.getD [], now⟩⟩),
       (norm_identifier api_key remote ident).2 + 1⟩ := by
  have hke : api_key.isEmpty = false := isEmpty_false_of_ne_nil _ hk
  have hse : sid.isEmpty = false := isEmpty_false_of_ne_nil _ hne
  simp only [do_link, hke, Bool.false_eq_true, if_false, hsid, hse, get_summary,
    hsum, scope_aliases_eq]

-- ====== fixtures used by concrete witnesses ======

/-- A summary with every optional field absent. -/
def info00 : Info := ⟨none, none, none, none, none, none⟩

/-- An oracle whose summary endpoint always answers with `info00`. -/
def remote1 : Remote := ⟨fun _ => none, fun _ => some info00⟩

/-- A one-chat, one-alias store. -/
def store5 : Store := [(('g' :: []), ⟨[(('x' :: []), ⟨('1' :: []), [], [], 0⟩)]⟩)]

/-- A 17-digit canonical id, passed through unchanged by `norm_identifier`. -/
def sid17 : Str := "76561197960265729".data

-- ====== C2 ======

theorem head_ne_imp_ne {a b : Char} (l1 l2 : List Char) (h : ¬ a = b) :
    (a :: l1) ≠ (b :: l2) := by
  intro hc
  injection hc with h1 h2
  exact h h1

/-- With an empty credential the fetch tail answers with the
resolution-failure message or the could-not-fetch message. -/
theorem status_fetch_empty_key_msg (remote : Remote) (fmtTs : Int → Str)
    (target : Str) (p : Option Str × Nat) :
    (status_fetch [] remote fmtTs target p).1 =
      "无法解析为 SteamID：".data ++ target ∨
    ∃ sid, (status_fetch [] remote fmtTs target p).1 =
      "未能获取到用户信息（steamid: ".data ++ sid ++ "），可能是隐私设置或 API 出错。".data := by
  simp only [status_fetch]
  cases hp1 : p.1 with
  | none => exact Or.inl rfl
  | some sid =>
    dsimp only
    by_cases hs : sid.isEmpty = true
    · rw [if_pos hs]
      exact Or.inl rfl
    · rw [if_neg hs]
      exact Or.inr ⟨sid, rfl⟩

/-- With an empty credential `do_status` answers with the resolution-failure
message or the could-not-fetch message. -/
theorem do_status_empty_key_msg (remote : Remote) (fmtTs : Int → Str)
    (file : FileContent) (chat target : Str) :
    (do_status [] remote fmtTs file chat target).1 =
      "无法解析为 SteamID：".data ++ target ∨
    ∃ sid, (do_status [] remote fmtTs file chat target).1 =
      "未能获取到用户信息（steamid: ".data ++ sid ++ "），可能是隐私设置或 API 出错。".data := by
  simp only [do_status]
  exact status_fetch_empty_key_msg remote fmtTs target _

/-- With an empty credential `do_whois` answers with the not-found message or
the could-not-fetch message. -/
theorem do_whois_empty_key_msg (remote : Remote) (file : FileContent)
    (chat alia : Str) :
    (do_whois [] remote file chat alia).1 =
      "未找到别名：".data ++ norm_alias alia ∨
    ∃ sid, (do_whois [] remote file chat alia).1 =
      norm_alias alia ++ " -> ".data ++ sid ++
        "\n无法获取详细信息，可能隐私未公开或 API 出错。".data := by
  simp only [do_whois]
  cases hrec : alookup (aliasesOf (load_store file) chat) (norm_alias alia) with
  | none => exact Or.inl rfl
  | some r => exact Or.inr ⟨r.steamid, rfl⟩

/-- The whois could-not-fetch message is longer than the configuration-error
message, whatever the alias and id are. -/
theorem whois_fetchfail_ne_config (al sid : Str) :
    al ++ " -> ".data ++ sid ++ "\n无法获取详细信息，可能隐私未公开或 API 出错。".data ≠
      "请先配置 steam.api_key。".data := by
  intro h
  have hl := congrArg List.length h
  have h1 : (" -> ".data).length = 4 := by decide
  have h2 : ("\n无法获取详细信息，可能隐私未公开或 API 出错。".data).length = 26 := by
    decide
  have h3 : ("请先配置 steam.api_key。".data).length = 19 := by decide
  simp only [List.length_append, h1, h2, h3] at hl
  omega

/-- C2 counterexample: with an empty credential, `status` answers through the
resolution-failure message, which is not the configuration-error message that
`do_link` uses, refuting the claim that `status` returns a
configuration-error message. -/
theorem c2_counterexample :
    (do_status [] remote0 intToStr FileContent.absent ('g' :: []) ("abc".data)).1 =
      "无法解析为 SteamID：abc".data ∧
    "无法解析为 SteamID：abc".data ≠ "请先配置 steam.api_key。".data :=
  ⟨rfl, by decide⟩

/-- C2 (amended): when the stripped credential is empty, `link` returns the
configuration-error message, writes nothing and makes no remote call, while
`status` and `whois` also make no remote API call (the empty-key guard sits
inside the API wrappers) but answer through their resolution-failure /
fetch-failure / not-found paths rather than with a configuration-error
message. -/
theorem c2_empty_key_no_remote_call (raw_key : Str) (remote : Remote)
    (fmtTs : Int → Str) (file : FileContent) (chat target alia al ident : Str)
    (now : Nat) (hk : mkService raw_key = []) :
    do_link (mkService raw_key) remote file chat now al ident =
      ⟨"请先配置 steam.api_key。".data, none, 0⟩ ∧
    ((do_status (mkService raw_key) remote fmtTs file chat target).2 = 0 ∧
     ((do_status (mkService raw_key) remote fmtTs file chat target).1 =
        "无法解析为 SteamID：".data ++ target ∨
      ∃ sid, (do_status (mkService raw_key) remote fmtTs file chat target).1 =
        "未能获取到用户信息（steamid: ".data ++ sid ++
          "），可能是隐私设置或 API 出错。".data) ∧
     (do_status (mkService raw_key) remote fmtTs file chat target).1 ≠
       "请先配置 steam.api_key。".data) ∧
    ((do_whois (mkService raw_key) remote file chat alia).2 = 0 ∧
     ((do_whois (mkService raw_key) remote file chat alia).1 =
        "未找到别名：".data ++ norm_alias alia ∨
      ∃ sid, (do_whois (mkService raw_key) remote file chat alia).1 =
        norm_alias alia ++ " -> ".data ++ sid ++
          "\n无法获取详细信息，可能隐私未公开或 API 出错。".data) ∧
     (do_whois (mkService raw_key) remote file chat alia).1 ≠
       "请先配置 steam.api_key。".data) := by
  rw [hk]
  have hst := do_status_empty_key_msg remote fmtTs file chat target
  have hwh := do_whois_empty_key_msg remote file chat alia
  refine ⟨rfl,
    ⟨do_status_calls_empty_key remote fmtTs file chat target, hst, ?_⟩,
    ⟨do_whois_calls_empty_key remote file chat alia, hwh, ?_⟩⟩
  · rcases hst with h | ⟨sid, h⟩
    · rw [h]
      exact head_ne_imp_ne _ _ (by decide)
    · rw [h]
      exact head_ne_imp_ne _ _ (by decide)
  · rcases hwh with h | ⟨sid, h⟩
    · rw [h]
      exact head_ne_imp_ne _ _ (by decide)
    · rw [h]
      exact whois_fetchfail_ne_config _ _

/-- C2 witness: a whitespace-only credential strips to empty. -/
theorem c2_empty_key_no_remote_call_witness :
    mkService (' ' :: []) = [] ∧
    (do_link (mkService (' ' :: [])) remote0 FileContent.absent ('g' :: []) 5
        ('a' :: []) ('b' :: []) =
      ⟨"请先配置 steam.api_key。".data, none, 0⟩ ∧
     ((do_status (mkService (' ' :: [])) remote0 intToStr FileContent.absent
         ('g' :: []) ('t' :: [])).2 = 0 ∧
      ((do_status (mkService (' ' :: [])) remote0 intToStr FileContent.absent
          ('g' :: []) ('t' :: [])).1 =
         "无法解析为 SteamID：".data ++ ('t' :: []) ∨
       ∃ sid, (do_status (mkService (' ' :: [])) remote0 intToStr FileContent.absent
          ('g' :: []) ('t' :: [])).1 =
         "未能获取到用户信息（steamid: ".data ++ sid ++
           "），可能是隐私设置或 API 出错。".data) ∧
      (do_status (mkService (' ' :: [])) remote0 intToStr FileContent.absent
         ('g' :: []) ('t' :: [])).1 ≠ "请先配置 steam.api_key。".data) ∧
     ((do_whois (mkService (' ' :: [])) remote0 FileContent.absent ('g' :: [])
         ('w' :: [])).2 = 0 ∧
      ((do_whois (mkService (' ' :: [])) remote0 FileContent.absent ('g' :: [])
          ('w' :: [])).1 = "未找到别名：".data ++ norm_alias ('w' :: []) ∨
       ∃ sid, (do_whois (mkService (' ' :: [])) remote0 FileContent.absent ('g' :: [])
          ('w' :: [])).1 =
         norm_alias ('w' :: []) ++ " -> ".data ++ sid ++
           "\n无法获取详细信息，可能隐私未公开或 API 出错。".data) ∧
      (do_whois (mkService (' ' :: [])) remote0 FileContent.absent ('g' :: [])
         ('w' :: [])).1 ≠ "请先配置 steam.api_key。".data)) :=
  ⟨by decide,
   c2_empty_key_no_remote_call (' ' :: []) remote0 intToStr FileContent.absent
     ('g' :: []) ('t' :: []) ('w' :: []) ('a' :: []) ('b' :: []) 5 (by decide)⟩

-- ====== C3 ======

/-- C3: with a configured credential, `link` returns the cannot-resolve
message and hands nothing to `_save_store` when the identifier does not
resolve, and returns the bind-failed message and hands nothing to
`_save_store` when the summary fetch comes back empty. -/
theorem c3_link_failure_no_write (api_key : Str) (remote : Remote)
    (file : FileContent) (chat : Str) (now : Nat) (al ident : Str)
    (hk : api_key ≠ []) :
    ((norm_identifier api_key remote ident).1 = none →
      do_link api_key remote file chat now al ident =
        ⟨"无法解析为 SteamID：".data ++ ident, none,
         (norm_identifier api_key remote ident).2⟩) ∧
    (∀ sid, (norm_identifier api_key remote ident).1 = some sid → sid ≠ [] →
      remote.summary sid = none →
      do_link api_key remote file chat now al ident =
        ⟨"绑定失败：未能获取该账号信息（steamid: ".data ++ sid ++ "）。".data, none,
         (norm_identifier api_key remote ident).2 + 1⟩) := by
  have hke : api_key.isEmpty = false := isEmpty_false_of_ne_nil _ hk
  constructor
  · intro h
    simp only [do_link, hke, Bool.false_eq_true, if_false, h]
  · intro sid hsid hne hsum
    have hse : sid.isEmpty = false := isEmpty_false_of_ne_nil _ hne
    simp only [do_link, hke, Bool.false_eq_true, if_false, hsid, hse, get_summary,
      hsum]

/-- C3 witness: a vanity name the oracle cannot resolve, and a 17-digit id
whose summary fetch comes back empty. -/
theorem c3_link_failure_no_write_witness :
    (('k' :: []) ≠ ([] : Str) ∧
     (norm_identifier ('k' :: []) remote0 ("abc".data)).1 = none ∧
     (norm_identifier ('k' :: []) remote0 sid17).1 = some sid17 ∧ sid17 ≠ [] ∧
     remote0.summary sid17 = none) ∧
    do_link ('k' :: []) remote0 FileContent.absent ('g' :: []) 5 ('a' :: []) ("abc".data) =
      ⟨"无法解析为 SteamID：".data ++ "abc".data, none,
       (norm_identifier ('k' :: []) remote0 ("abc".data)).2⟩ ∧
    do_link ('k' :: []) remote0 FileContent.absent ('g' :: []) 5 ('a' :: []) sid17 =
      ⟨"绑定失败：未能获取该账号信息（steamid: ".data ++ sid17 ++ "）。".data, none,
       (norm_identifier ('k' :: []) remote0 sid17).2 + 1⟩ :=
  ⟨⟨by decide, by decide, by decide, by decide, by decide⟩,
   (c3_link_failure_no_write ('k' :: []) remote0 FileContent.absent ('g' :: []) 5
     ('a' :: []) ("abc".data) (by decide)).1 (by decide),
   (c3_link_failure_no_write ('k' :: []) remote0 FileContent.absent ('g' :: []) 5
     ('a' :: []) sid17 (by decide)).2 sid17 (by decide) (by decide) (by decide)⟩

-- ====== C4 ======

/-- C4: a missing or unparseable store file loads as the empty store without
raising, and a subsequent `list` on any chat reports the no-bindings message
rather than an error. -/
theorem c4_corrupt_store_loads_empty (chat : Str) :
    load_store FileContent.absent = [] ∧ load_store FileContent.corrupt = [] ∧
    do_list FileContent.absent chat =
      "本群未绑定任何别名。\n请使用：/steam link <别名> <steamid|vanity>".data ∧
    do_list FileContent.corrupt chat =
      "本群未绑定任何别名。\n请使用：/steam link <别名> <steamid|vanity>".data :=
  ⟨rfl, rfl, rfl, rfl⟩

-- ====== C5 ======

/-- C5: `unlink` on an alias whose normalized form is unbound in the chat's
scope returns the not-found message and hands nothing to `_save_store` (the
handler is total, so it never throws); when the binding exists it is removed
and exactly the updated store is persisted. -/
theorem c5_unlink_no_write_or_remove (file : FileContent) (chat al : Str) :
    (alookup (aliasesOf (load_store file) chat) (norm_alias al) = none →
      do_unlink file chat al = ("未找到别名：".data ++ norm_alias al, none)) ∧
    (∀ r, alookup (aliasesOf (load_store file) chat) (norm_alias al) = some r →
      keysNodup (aliasesOf (load_store file) chat) →
      do_unlink file chat al =
        ("已解除绑定：".data ++ norm_alias al,
         some (ainsert (load_store file) chat
           ⟨aerase (aliasesOf (load_store file) chat) (norm_alias al)⟩)) ∧
      alookup (aliasesOf (ainsert (load_store file) chat
          ⟨aerase (aliasesOf (load_store file) chat) (norm_alias al)⟩) chat)
        (norm_alias al) = none) := by
  constructor
  · intro h
    simp only [do_unlink, h]
  · intro r h hwf
    refine ⟨?_, ?_⟩
    · simp only [do_unlink, h]
    · rw [aliasesOf_ainsert_self]
      exact alookup_aerase_self _ _ hwf

/-- C5 witness: unlink on an empty store (not found, no write) and on a store
holding the binding (removed, persisted). -/
theorem c5_unlink_no_write_or_remove_witness :
    (alookup (aliasesOf (load_store FileContent.absent) ('g' :: []))
        (norm_alias ('x' :: [])) = none ∧
     do_unlink FileContent.absent ('g' :: []) ('x' :: []) =
       ("未找到别名：".data ++ norm_alias ('x' :: []), none)) ∧
    (alookup (aliasesOf (load_store (FileContent.good store5)) ('g' :: []))
        (norm_alias ('x' :: [])) = some ⟨('1' :: []), [], [], 0⟩ ∧
     keysNodup (aliasesOf (load_store (FileContent.good store5)) ('g' :: [])) ∧
     (do_unlink (FileContent.good store5) ('g' :: []) ('x' :: []) =
        ("已解除绑定：".data ++ norm_alias ('x' :: []),
         some (ainsert (load_store (FileContent.good store5)) ('g' :: [])
           ⟨aerase (aliasesOf (load_store (FileContent.good store5)) ('g' :: []))
             (norm_alias ('x' :: []))⟩)) ∧
      alookup (aliasesOf (ainsert (load_store (FileContent.good store5)) ('g' :: [])
          ⟨aerase (aliasesOf (load_store (FileContent.good store5)) ('g' :: []))
            (norm_alias ('x' :: []))⟩) ('g' :: []))
        (norm_alias ('x' :: [])) = none)) :=
  ⟨⟨by decide,
    (c5_unlink_no_write_or_remove FileContent.absent ('g' :: []) ('x' :: [])).1
      (by decide)⟩,
   ⟨by decide, by decide,
    (c5_unlink_no_write_or_remove (FileContent.good store5) ('g' :: []) ('x' :: [])).2
      ⟨('1' :: []), [], [], 0⟩ (by decide) (by decide)⟩⟩

-- ====== C6 ======

/-- C6: alias normalization maps "@Foo", "foo" and " FOO " to the key "foo",
and a successful `link` stores its freshly built record under the normalized
alias key, overwriting whatever record that key held before. -/
theorem c6_norm_alias_upsert (api_key : Str) (remote : Remote) (file : FileContent)
    (chat : Str) (now : Nat) (al ident sid : Str) (info : Info)
    (hk : api_key ≠ [])
    (hsid : (norm_identifier api_key remote ident).1 = some sid) (hne : sid ≠ [])
    (hsum : remote.summary sid = some info) :
    (norm_alias ("@Foo".data) = "foo".data ∧ norm_alias ("foo".data) = "foo".data ∧
     norm_alias (" FOO ".data) = "foo".data) ∧
    (do_link api_key remote file chat now al ident).write =
      some (ainsert (load_store file) chat
        ⟨ainsert (aliasesOf (load_store file) chat) (norm_alias al)
          ⟨sid, info.profileurl.getD [], info.personaname.getD [], now⟩⟩) ∧
    alookup (aliasesOf (ainsert (load_store file) chat
        ⟨ainsert (aliasesOf (load_store file) chat) (norm_alias al)
          ⟨sid, info.profileurl.getD [], info.personaname.getD [], now⟩⟩) chat)
      (norm_alias al) =
      some ⟨sid, info.profileurl.getD [], info.personaname.getD [], now⟩ := by
  refine ⟨⟨by decide, by decide, by decide⟩, ?_, ?_⟩
  · rw [do_link_success api_key remote file chat now al ident sid info hk hsid hne hsum]
  · rw [aliasesOf_ainsert_self]
    exact alookup_ainsert_self _ _ _

/-- C6 witness: linking "@Foo" to a 17-digit id on top of a store that
already binds "foo". -/
theorem c6_norm_alias_upsert_witness :
    (('k' :: []) ≠ ([] : Str) ∧
     (norm_identifier ('k' :: []) remote1 sid17).1 = some sid17 ∧ sid17 ≠ [] ∧
     remote1.summary sid17 = some info00) ∧
    ((do_link ('k' :: []) remote1 (FileContent.good store5) ('g' :: []) 7
        ("@Foo".data) sid17).write =
      some (ainsert (load_store (FileContent.good store5)) ('g' :: [])
        ⟨ainsert (aliasesOf (load_store (FileContent.good store5)) ('g' :: []))
          (norm_alias ("@Foo".data))
          ⟨sid17, info00.profileurl.getD [], info00.personaname.getD [], 7⟩⟩) ∧
     alookup (aliasesOf (ainsert (load_store (FileContent.good store5)) ('g' :: [])
        ⟨ainsert (aliasesOf (load_store (FileContent.good store5)) ('g' :: []))
          (norm_alias ("@Foo".data))
          ⟨sid17, info00.profileurl.getD [], info00.personaname.getD [], 7⟩⟩) ('g' :: []))
      (norm_alias ("@Foo".data)) =
      some ⟨sid17, info00.profileurl.getD [], info00.personaname.getD [], 7⟩) :=
  ⟨⟨by decide, by decide, by decide, by decide⟩,
   ((c6_norm_alias_upsert ('k' :: []) remote1 (FileContent.good store5) ('g' :: []) 7
      ("@Foo".data) sid17 sid17 info00 (by decide) (by decide) (by decide)
      (by decide)).2.1),
   ((c6_norm_alias_upsert ('k' :: []) remote1 (FileContent.good store5) ('g' :: []) 7
      ("@Foo".data) sid17 sid17 info00 (by decide) (by decide) (by decide)
      (by decide)).2.2)⟩

-- ====== C8 ======

/-- C8: `status` tries the bound alias first: with a binding present the
stored record's steamid feeds the fetch tail, the result does not depend on
the vanity resolver, and only without a binding does `status` fall through
to `norm_identifier` on the raw target. -/
theorem c8_alias_precedence (api_key : Str) (remote : Remote) (fmtTs : Int → Str)
    (file : FileContent) (chat target : Str) :
    (∀ r, alookup (aliasesOf (load_store file) chat) (norm_alias target) = some r →
      do_status api_key remote fmtTs file chat target =
        status_fetch api_key remote fmtTs target (some r.steamid, 0) ∧
      ∀ v1 v2 : Str → Option Str,
        do_status api_key ⟨v1, remote.summary⟩ fmtTs file chat target =
          do_status api_key ⟨v2, remote.summary⟩ fmtTs file chat target) ∧
    (alookup (aliasesOf (load_store file) chat) (norm_alias target) = none →
      do_status api_key remote fmtTs file chat target =
        status_fetch api_key remote fmtTs target
          (norm_identifier api_key remote target)) := by
  constructor
  · intro r h
    constructor
    · simp only [do_status, h]
    · intro v1 v2
      simp only [do_status, h]
      rfl
  · intro h
    simp only [do_status, h]

/-- C8 witness: a chat with "x" bound (alias path taken) and an empty store
(fall-through to raw-identifier parsing). -/
theorem c8_alias_precedence_witness :
    (alookup (aliasesOf (load_store (FileContent.good store5)) ('g' :: []))
        (norm_alias ('x' :: [])) = some ⟨('1' :: []), [], [], 0⟩ ∧
     do_status ('k' :: []) remote1 intToStr (FileContent.good store5) ('g' :: [])
        ('x' :: []) =
       status_fetch ('k' :: []) remote1 intToStr ('x' :: []) (some ('1' :: []), 0)) ∧
    (alookup (aliasesOf (load_store FileContent.absent) ('g' :: []))
        (norm_alias ('x' :: [])) = none ∧
     do_status ('k' :: []) remote1 intToStr FileContent.absent ('g' :: [])
        ('x' :: []) =
       status_fetch ('k' :: []) remote1 intToStr ('x' :: [])
         (norm_identifier ('k' :: []) remote1 ('x' :: []))) :=
  ⟨⟨by decide,
    ((c8_alias_precedence ('k' :: []) remote1 intToStr (FileContent.good store5)
       ('g' :: []) ('x' :: [])).1 ⟨('1' :: []), [], [], 0⟩ (by decide)).1⟩,
   ⟨by decide,
    (c8_alias_precedence ('k' :: []) remote1 intToStr FileContent.absent
       ('g' :: []) ('x' :: [])).2 (by decide)⟩⟩

-- ====== C9 ======

/-- C9: linking the same alias and identifier twice (credential set, both
fetches succeeding, well-formed chat scope) persists a store holding exactly
one entry for the normalized alias; the second record overwrites the first
wholesale and its `created_at` is the second timestamp, no earlier than the
first one's. -/
theorem c9_link_twice_idempotent (api_key : Str) (remote : Remote)
    (file : FileContent) (chat : Str) (now1 now2 : Nat) (al ident sid : Str)
    (info : Info) (hk : api_key ≠ [])
    (hwf : keysNodup (aliasesOf (load_store file) chat))
    (hsid : (norm_identifier api_key remote ident).1 = some sid) (hne : sid ≠ [])
    (hsum : remote.summary sid = some info) (hnow : now1 ≤ now2) :
    ∃ store1 store2,
      (do_link api_key remote file chat now1 al ident).write = some store1 ∧
      (do_link api_key remote (FileContent.good store1) chat now2 al ident).write =
        some store2 ∧
      countKey (aliasesOf store2 chat) (norm_alias al) = 1 ∧
      alookup (aliasesOf store1 chat) (norm_alias al) =
        some ⟨sid, info.profileurl.getD [], info.personaname.getD [], now1⟩ ∧
      alookup (aliasesOf store2 chat) (norm_alias al) =
        some ⟨sid, info.profileurl.getD [], info.personaname.getD [], now2⟩ ∧
      (⟨sid, info.profileurl.getD [], info.personaname.getD [], now1⟩ :
          AliasRecord).created_at ≤
        (⟨sid, info.profileurl.getD [], info.personaname.getD [], now2⟩ :
          AliasRecord).created_at := by
  refine ⟨ainsert (load_store file) chat
      ⟨ainsert (aliasesOf (load_store file) chat) (norm_alias al)
        ⟨sid, info.profileurl.getD [], info.personaname.getD [], now1⟩⟩,
    ainsert (ainsert (load_store file) chat
        ⟨ainsert (aliasesOf (load_store file) chat) (norm_alias al)
          ⟨sid, info.profileurl.getD [], info.personaname.getD [], now1⟩⟩) chat
      ⟨ainsert (ainsert (aliasesOf (load_store file) chat) (norm_alias al)
          ⟨sid, info.profileurl.getD [], info.personaname.getD [], now1⟩)
        (norm_alias al)
        ⟨sid, info.profileurl.getD [], info.personaname.getD [], now2⟩⟩,
    ?_, ?_, ?_, ?_, ?_, hnow⟩
  · rw [do_link_success api_key remote file chat now1 al ident sid info hk hsid hne
      hsum]
  · rw [do_link_success api_key remote _ chat now2 al ident sid info hk hsid hne
      hsum]
    simp only [load_store, aliasesOf_ainsert_self]
  · rw [aliasesOf_ainsert_self]
    exact countKey_ainsert_of_nodup _ _ _ (keysNodup_ainsert _ _ _ hwf)
  · rw [aliasesOf_ainsert_self]
    exact alookup_ainsert_self _ _ _
  · rw [aliasesOf_ainsert_self]
    exact alookup_ainsert_self _ _ _

/-- C9 witness: linking "x" to a 17-digit id twice over an empty store. -/
theorem c9_link_twice_idempotent_witness :
    (('k' :: []) ≠ ([] : Str) ∧
     keysNodup (aliasesOf (load_store FileContent.absent) ('g' :: [])) ∧
     (norm_identifier ('k' :: []) remote1 sid17).1 = some sid17 ∧ sid17 ≠ [] ∧
     remote1.summary sid17 = some info00 ∧ 3 ≤ 4) ∧
    (∃ store1 store2,
      (do_link ('k' :: []) remote1 FileContent.absent ('g' :: []) 3 ('x' :: [])
          sid17).write = some store1 ∧
      (do_link ('k' :: []) remote1 (FileContent.good store1) ('g' :: []) 4 ('x' :: [])
          sid17).write = some store2 ∧
      countKey (aliasesOf store2 ('g' :: [])) (norm_alias ('x' :: [])) = 1 ∧
      alookup (aliasesOf store1 ('g' :: [])) (norm_alias ('x' :: [])) =
        some ⟨sid17, info00.profileurl.getD [], info00.personaname.getD [], 3⟩ ∧
      alookup (aliasesOf store2 ('g' :: [])) (norm_alias ('x' :: [])) =
        some ⟨sid17, info00.profileurl.getD [], info00.personaname.getD [], 4⟩ ∧
      (⟨sid17, info00.profileurl.getD [], info00.personaname.getD [], 3⟩ :
          AliasRecord).created_at ≤
        (⟨sid17, info00.profileurl.getD [], info00.personaname.getD [], 4⟩ :
          AliasRecord).created_at) :=
  ⟨⟨by decide, by decide, by decide, by decide, by decide, by decide⟩,
   c9_link_twice_idempotent ('k' :: []) remote1 FileContent.absent ('g' :: []) 3 4
     ('x' :: []) sid17 sid17 info00 (by decide) (by decide) (by decide) (by decide)
     (by decide) (by decide)⟩

-- ====== line-level helpers for the status renderer ======

/-- The fixed prefix of the last-logoff line. -/
def preLogoff : Str := "最后下线时间: ".data

/-- The fixed prefix of the currently-playing line. -/
def preGame : Str := "当前游戏: ".data

/-- The prefix a state line would carry when rendering an unknown code. -/
def preUnknown : Str := "状态: 未知状态(".data

/-- Whether some rendered line starts with the given prefix. -/
def hasLinePrefixed (pre : Str) (parts : List Str) : Bool :=
  parts.any (fun l => List.isPrefixOf pre l)

theorem any_if_singleton (c : Bool) (x : Str) (p : Str → Bool) :
    (if c then [x] else ([] : List Str)).any p = (c && p x) := by
  cases c
  · rfl
  · simp [List.any_cons]

theorem truthyInt_iff (o : Option Int) :
    truthyInt o = true ↔ ∃ t, o = some t ∧ t ≠ 0 := by
  cases o with
  | none => simp [truthyInt]
  | some t => simp [truthyInt]

theorem truthyStr_iff (o : Option Str) :
    truthyStr o = true ↔ ∃ s, o = some s ∧ s ≠ [] := by
  cases o with
  | none => simp [truthyStr]
  | some s => simp [truthyStr, List.isEmpty_iff]

theorem preLogoff_player (n s : Str) :
    List.isPrefixOf preLogoff (playerLine n s) = false :=
  isPrefixOf_ne_head _ _ (by decide)

theorem preLogoff_state (st : Int) :
    List.isPrefixOf preLogoff (stateLine st) = false :=
  isPrefixOf_ne_head _ _ (by decide)

theorem preLogoff_game (g : Str) :
    List.isPrefixOf preLogoff (gameLine g) = false :=
  isPrefixOf_ne_head _ _ (by decide)

theorem preLogoff_logoff (t : Str) :
    List.isPrefixOf preLogoff (logoffLine t) = true :=
  isPrefixOf_self_append _ _

theorem preLogoff_url (u : Str) :
    List.isPrefixOf preLogoff (urlLine u) = false :=
  isPrefixOf_ne_head _ _ (by decide)

theorem preLogoff_priv :
    List.isPrefixOf preLogoff privacyLineStatus = false := by
  decide

theorem preGame_player (n s : Str) :
    List.isPrefixOf preGame (playerLine n s) = false :=
  isPrefixOf_ne_head _ _ (by decide)

theorem preGame_state (st : Int) :
    List.isPrefixOf preGame (stateLine st) = false :=
  isPrefixOf_ne_head _ _ (by decide)

theorem preGame_game (g : Str) :
    List.isPrefixOf preGame (gameLine g) = true :=
  isPrefixOf_self_append _ _

theorem preGame_logoff (t : Str) :
    List.isPrefixOf preGame (logoffLine t) = false :=
  isPrefixOf_ne_head _ _ (by decide)

theorem preGame_url (u : Str) :
    List.isPrefixOf preGame (urlLine u) = false :=
  isPrefixOf_ne_head _ _ (by decide)

theorem preGame_priv :
    List.isPrefixOf preGame privacyLineStatus = false := by
  decide

theorem preUnknown_player (n s : Str) :
    List.isPrefixOf preUnknown (playerLine n s) = false :=
  isPrefixOf_ne_head _ _ (by decide)

theorem preUnknown_nostate :
    List.isPrefixOf preUnknown noStateLine = false := by
  decide

theorem preUnknown_url (u : Str) :
    List.isPrefixOf preUnknown (urlLine u) = false :=
  isPrefixOf_ne_head _ _ (by decide)

theorem preUnknown_priv :
    List.isPrefixOf preUnknown privacyLineStatus = false := by
  decide

-- ====== C7 ======

/-- A summary at persona state 0 whose `lastlogoff` is present but 0 ("falsy"). -/
def infoC7c : Info := ⟨none, some 0, none, none, some 0, none⟩

/-- A summary at persona state 1 with no game and no logoff data. -/
def infoC7w : Info := ⟨none, some 1, none, none, none, none⟩

/-- C7 counterexample: `lastlogoff = 0` is present while the state is 0, yet
no last-logoff line is rendered, because the code tests Python truthiness of
the value, not presence. -/
theorem c7_counterexample :
    ¬ ((hasLinePrefixed preLogoff (render_status intToStr [] infoC7c) = true) ↔
       (infoC7c.personastate = some 0 ∧ infoC7c.lastlogoff.isSome = true)) := by
  decide

/-- C7 (amended): for a summary with a persona-state code, the state line
renders the code through the closed table 0..6 with codes outside it rendered
as the unknown-state text; a last-logoff line appears iff the state is 0 and
`lastlogoff` is present with a non-zero (truthy) value; a currently-playing
line appears iff `gameextrainfo` is present and non-empty (truthy). -/
theorem c7_personastate_rendering (fmtTs : Int → Str) (sid : Str) (info : Info)
    (st : Int) (h : info.personastate = some st) :
    (personaState 0 = "离线".data ∧ personaState 1 = "在线".data ∧
     personaState 2 = "忙碌".data ∧ personaState 3 = "离开".data ∧
     personaState 4 = "暂离（打盹）".data ∧ personaState 5 = "寻找交易".data ∧
     personaState 6 = "寻找玩伴".data) ∧
    (∀ c : Int, (c < 0 ∨ 6 < c) →
      personaState c = "未知状态(".data ++ intToStr c ++ ")".data) ∧
    stateLine st ∈ render_status fmtTs sid info ∧
    (hasLinePrefixed preLogoff (render_status fmtTs sid info) = true ↔
      st = 0 ∧ ∃ t, info.lastlogoff = some t ∧ t ≠ 0) ∧
    (hasLinePrefixed preGame (render_status fmtTs sid info) = true ↔
      ∃ g, info.gameextrainfo = some g ∧ g ≠ []) := by
  refine ⟨⟨by decide, by decide, by decide, by decide, by decide, by decide,
    by decide⟩, ?_, ?_, ?_, ?_⟩
  · intro c hc
    have hcn : ∀ i : Int, 0 ≤ i → i ≤ 6 → ¬((c == i) = true) := by
      intro i h0 h6 hcc
      have hci := eq_of_beq hcc
      rcases hc with hc | hc <;> omega
    simp only [personaState]
    rw [if_neg (hcn 0 (by decide) (by decide)), if_neg (hcn 1 (by decide) (by decide)),
      if_neg (hcn 2 (by decide) (by decide)), if_neg (hcn 3 (by decide) (by decide)),
      if_neg (hcn 4 (by decide) (by decide)), if_neg (hcn 5 (by decide) (by decide)),
      if_neg (hcn 6 (by decide) (by decide))]
  · simp only [render_status, h]
    exact List.mem_append_left _ (List.mem_cons_of_mem _ (List.mem_cons_self _ _))
  · simp only [render_status, h, hasLinePrefixed, List.any_append, List.any_cons,
      List.any_nil, any_if_singleton, preLogoff_player, preLogoff_state,
      preLogoff_game, preLogoff_logoff, preLogoff_url, preLogoff_priv,
      Bool.or_false, Bool.false_or, Bool.and_false, Bool.and_true]
    simp only [Bool.and_eq_true, beq_iff_eq, truthyInt_iff]
  · simp only [render_status, h, hasLinePrefixed, List.any_append, List.any_cons,
      List.any_nil, any_if_singleton, preGame_player, preGame_state, preGame_game,
      preGame_logoff, preGame_url, preGame_priv, Bool.or_false, Bool.false_or,
      Bool.and_false, Bool.and_true]
    exact truthyStr_iff _

/-- C7 witness: persona state 1 with no game info renders neither a
currently-playing line nor a last-logoff line. -/
theorem c7_personastate_rendering_witness :
    infoC7w.personastate = some 1 ∧
    (hasLinePrefixed preLogoff (render_status intToStr [] infoC7w) = true ↔
      (1 : Int) = 0 ∧ ∃ t, infoC7w.lastlogoff = some t ∧ t ≠ 0) ∧
    (hasLinePrefixed preGame (render_status intToStr [] infoC7w) = true ↔
      ∃ g, infoC7w.gameextrainfo = some g ∧ g ≠ []) :=
  ⟨by decide,
   (c7_personastate_rendering intToStr [] infoC7w 1 (by decide)).2.2.2.1,
   (c7_personastate_rendering intToStr [] infoC7w 1 (by decide)).2.2.2.2⟩

-- ====== C10 ======

/-- C10: with a non-empty summary lacking `personastate`, `status` takes the
distinct cannot-determine branch: exactly the player line, the
cannot-determine line, then optional profile-url and privacy lines; no line
carries the persona table's unknown-state rendering. -/
theorem c10_missing_personastate_branch (fmtTs : Int → Str) (sid : Str)
    (info : Info) (h : info.personastate = none) :
    render_status fmtTs sid info =
      [playerLine (info.personaname.getD ("<未公开昵称>".data)) sid, noStateLine]
        ++ (if truthyStr info.profileurl then [urlLine (info.profileurl.getD [])]
            else [])
        ++ (if !(info.communityvisibilitystate == some 3) then [privacyLineStatus]
            else []) ∧
    hasLinePrefixed preUnknown (render_status fmtTs sid info) = false := by
  constructor
  · simp only [render_status, h]
  · simp only [render_status, h, hasLinePrefixed, List.any_append, List.any_cons,
      List.any_nil, any_if_singleton, preUnknown_player, preUnknown_nostate,
      preUnknown_url, preUnknown_priv, Bool.or_false, Bool.false_or, Bool.and_false]

/-- C10 witness: a summary with every field absent takes the
cannot-determine branch with the privacy caveat. -/
theorem c10_missing_personastate_branch_witness :
    info00.personastate = none ∧
    (render_status intToStr [] info00 =
      [playerLine (info00.personaname.getD ("<未公开昵称>".data)) [], noStateLine]
        ++ (if truthyStr info00.profileurl then [urlLine (info00.profileurl.getD [])]
            else [])
        ++ (if !(info00.communityvisibilitystate == some 3) then [privacyLineStatus]
            else []) ∧
     hasLinePrefixed preUnknown (render_status intToStr [] info00) = false) :=
  ⟨by decide, c10_missing_personastate_branch intToStr [] info00 (by decide)⟩
